import Mathlib

/-!
Shallow embedding of `model_checkpointing/checkpoint_handler.py`.

Each Python function is modelled as a pure Lean function that returns the
trace of observable effects it performs (prints, filesystem reads/writes,
collective gather/scatter calls, state-dict applications) together with the
resulting model/optimizer state and the Python return value.  Filesystem
facts (file or directory existence) and externally produced values (the
checkpoint contents, the scatter result, timing strings) are passed in as
parameters; model and optimizer states are abstracted as natural numbers.
-/

namespace CheckpointHandler

/-- The subset of `torch.distributed.fsdp.StateDictType` used by the handler. -/
inductive StateDictType
  | FULL_STATE_DICT
  | LOCAL_STATE_DICT
  | SHARDED_STATE_DICT
  deriving DecidableEq, Repr

/-- Rendering of a `StateDictType` value as Python prints it in an f-string. -/
def stateDictTypeStr : StateDictType → String
  | StateDictType.FULL_STATE_DICT => "StateDictType.FULL_STATE_DICT"
  | StateDictType.LOCAL_STATE_DICT => "StateDictType.LOCAL_STATE_DICT"
  | StateDictType.SHARDED_STATE_DICT => "StateDictType.SHARDED_STATE_DICT"

/-- The fields of the `cfg` object that `checkpoint_handler.py` reads. -/
structure Config where
  checkpoint_type : StateDictType
  verbose : Bool
  checkpoint_folder : String
  model_save_name : String
  checkpoint_model_filename : String
  optimizer_name : String
  optimizer_checkpoint_file : String
  dist_checkpoint_root_folder : String
  dist_checkpoint_folder : String
  model_name : String
  deriving DecidableEq, Repr

/-- Fuel-driven core of the decimal rendering (structural recursion on the
fuel, in the style of `Nat.toDigitsCore`). -/
def natDecimalCore : Nat → Nat → List Char
  | 0, _ => []
  | fuel + 1, n =>
    if n < 10 then [Nat.digitChar n]
    else natDecimalCore fuel (n / 10) ++ [Nat.digitChar (n % 10)]

/-- Decimal digits of a natural number, most significant first, as characters;
models Python's `str(n)` for a nonnegative integer `n`. -/
def natDecimalAux (n : Nat) : List Char := natDecimalCore (n + 1) n

/-- Python's `str(n)` for a nonnegative integer `n` (decimal rendering). -/
def natDecimal (n : Nat) : String := ⟨natDecimalAux n⟩

/-- Numeric value of a list of decimal digit characters (left fold). -/
def decVal (cs : List Char) : Nat :=
  cs.foldl (fun a c => 10 * a + (c.toNat - 48)) 0

/-- Observable effects of the checkpoint handler: console prints, filesystem
operations, collective gather/scatter calls, and state-dict applications. -/
inductive Ev
  | print (msg : String)
  | mkdir (path : String)
  | writeFile (path : String)
  | readFile (path : String)
  | gatherFullStateDict
  | applyModelStateDict
  | gatherFullOptimState
  | scatterOptimState
  | applyOptimStateDict
  | getLocalStateDict
  | distWrite (dir : String)
  | distRead (dir : String)
  deriving DecidableEq, Repr

/-- Events that create or modify filesystem entries. -/
def isFsWrite : Ev → Bool
  | Ev.writeFile _ => true
  | Ev.distWrite _ => true
  | Ev.mkdir _ => true
  | _ => false

/-- Events that read from the filesystem. -/
def isFsRead : Ev → Bool
  | Ev.readFile _ => true
  | Ev.distRead _ => true
  | _ => false

/-- Result of a save function: its effect trace and Python return value. -/
structure SaveResult where
  events : List Ev
  ret : Option Bool
  deriving DecidableEq, Repr

/-- Result of a model-load function: effect trace, resulting model state, and
Python return value. -/
structure ModelLoadResult where
  events : List Ev
  modelState : Nat
  ret : Option Bool
  deriving DecidableEq, Repr

/-- Result of the optimizer-load function: effect trace, the scattered shard
computed by `FSDP.scatter_full_optim_state_dict` (the local `sharded_osd`),
the resulting optimizer state, and the Python return value. -/
structure OptimLoadResult where
  events : List Ev
  sharded_osd : Option Nat
  optimState : Nat
  ret : Option Bool
  deriving DecidableEq, Repr

/-- `Path.cwd() / cfg.checkpoint_folder`, the directory used by both
full-state save functions. -/
def checkpoint_save_dir (cfg : Config) (cwd : String) : String :=
  cwd ++ "/" ++ cfg.checkpoint_folder

/-- `cfg.model_save_name + "-" + str(epoch) + ".pt"`. -/
def model_ckpt_save_name (cfg : Config) (epoch : Nat) : String :=
  cfg.model_save_name ++ "-" ++ natDecimal epoch ++ ".pt"

/-- `str(save_dir) + "/" + save_name` in `save_model_checkpoint`. -/
def model_ckpt_save_path (cfg : Config) (cwd : String) (epoch : Nat) : String :=
  checkpoint_save_dir cfg cwd ++ "/" ++ model_ckpt_save_name cfg epoch

/-- `Path.cwd() / cfg.checkpoint_folder / cfg.checkpoint_model_filename`. -/
def model_ckpt_load_path (cfg : Config) (cwd : String) : String :=
  cwd ++ "/" ++ cfg.checkpoint_folder ++ "/" ++ cfg.checkpoint_model_filename

/-- `cfg.optimizer_name + "-" + cfg.model_save_name + "-" + str(epoch) + ".pt"`. -/
def optimizer_ckpt_save_name (cfg : Config) (epoch : Nat) : String :=
  cfg.optimizer_name ++ "-" ++ cfg.model_save_name ++ "-" ++ natDecimal epoch ++ ".pt"

/-- `save_dir / opt_save_name` in `save_optimizer_checkpoint`. -/
def optimizer_ckpt_save_path (cfg : Config) (cwd : String) (epoch : Nat) : String :=
  checkpoint_save_dir cfg cwd ++ "/" ++ optimizer_ckpt_save_name cfg epoch

/-- `Path.cwd() / cfg.checkpoint_folder / cfg.optimizer_checkpoint_file`. -/
def optimizer_ckpt_load_path (cfg : Config) (cwd : String) : String :=
  cwd ++ "/" ++ cfg.checkpoint_folder ++ "/" ++ cfg.optimizer_checkpoint_file

/-- `cfg.dist_checkpoint_root_folder+"/"+cfg.dist_checkpoint_folder+"-"+cfg.model_name`. -/
def dist_ckpt_folder_name (cfg : Config) : String :=
  cfg.dist_checkpoint_root_folder ++ "/" ++ cfg.dist_checkpoint_folder ++ "-" ++ cfg.model_name

/-- `Path.cwd() / folder_name` used by the distributed save and load. -/
def dist_ckpt_dir (cfg : Config) (cwd : String) : String :=
  cwd ++ "/" ++ dist_ckpt_folder_name cfg

/-- `save_model_checkpoint(model, optimizer, rank, cfg, epoch)`: when the
configured type is not `FULL_STATE_DICT` it prints a warning (and does not
return); it then always enters the `FSDP.state_dict_type` block and gathers
the full state dict, and on rank 0 creates the folder and writes the file. -/
def save_model_checkpoint (rank : Nat) (cfg : Config) (cwd : String)
    (epoch : Nat) : SaveResult :=
  { events :=
      (if cfg.checkpoint_type ≠ StateDictType.FULL_STATE_DICT then
        [Ev.print (" unable to handle checkpoint type " ++
          stateDictTypeStr cfg.checkpoint_type ++ ", aborting")]
      else [])
      ++ [Ev.gatherFullStateDict]
      ++ (if cfg.verbose then
        [Ev.print ("saving process: rank " ++ natDecimal rank ++
          "  done w model state_dict\n")]
      else [])
      ++ (if rank = 0 then
        [Ev.print "--> saving model ...",
         Ev.mkdir (checkpoint_save_dir cfg cwd),
         Ev.writeFile (model_ckpt_save_path cfg cwd epoch)]
        ++ (if cfg.verbose then
          [Ev.print ("model checkpoint saved for epoch " ++ natDecimal epoch ++
            " at " ++ model_ckpt_save_path cfg cwd epoch ++ "\n")]
        else [])
      else []),
    ret := none }

/-- `load_model_checkpoint(model, rank, cfg, verbose=True)`: non-zero ranks
return immediately; rank 0 checks whether the checkpoint file exists, prints
and returns if not, and otherwise loads the file and applies it to the model. -/
def load_model_checkpoint (rank : Nat) (cfg : Config) (cwd : String)
    (ckptExists : Bool) (ckptState modelState : Nat)
    (verbose : Bool := true) : ModelLoadResult :=
  if rank ≠ 0 then
    { events := [], modelState := modelState, ret := none }
  else if ckptExists = false then
    { events := [Ev.print ("model checkpoint " ++ model_ckpt_load_path cfg cwd ++
        " not present. Returning...")],
      modelState := modelState, ret := none }
  else
    { events := [Ev.readFile (model_ckpt_load_path cfg cwd), Ev.applyModelStateDict]
        ++ (if cfg.verbose then [Ev.print "model checkpoint loaded to rank0 cpu"] else []),
      modelState := ckptState, ret := none }

/-- `save_optimizer_checkpoint(model, optimizer, rank, cfg, epoch)`: every rank
calls the collective `FSDP.full_optim_state_dict` gather exactly once (there is
no mode check); rank 0 then creates the folder and writes the optimizer file. -/
def save_optimizer_checkpoint (rank : Nat) (cfg : Config) (cwd : String)
    (epoch osdLen : Nat) : SaveResult :=
  { events :=
      (if cfg.verbose then
        [Ev.print ("--> optim state call on rank " ++ natDecimal rank ++ "\n")]
      else [])
      ++ [Ev.gatherFullOptimState]
      ++ (if cfg.verbose then
        [Ev.print ("optim state dict ready on " ++ natDecimal rank ++
          " and len of " ++ natDecimal osdLen ++ "\n")]
      else [])
      ++ (if rank = 0 then
        [Ev.mkdir (checkpoint_save_dir cfg cwd),
         Ev.print "--> saving optimizer state...",
         Ev.writeFile (optimizer_ckpt_save_path cfg cwd epoch),
         Ev.print ("--> saved " ++ optimizer_ckpt_save_path cfg cwd epoch ++ " to disk")]
      else []),
    ret := none }

/-- `load_optimizer_checkpoint(model, optimizer, rank, cfg)`: every rank checks
on its own filesystem view whether `opt_file_path` is a file and returns early
with a warning if not; otherwise rank 0 loads the full state dict from disk and
all ranks call the collective `FSDP.scatter_full_optim_state_dict`.  The line
`optimizer.load_state_dict(sharded_osd)` is commented out in the source, so the
scattered shard is computed but never installed and the optimizer state is
returned unchanged. -/
def load_optimizer_checkpoint (rank : Nat) (cfg : Config) (cwd : String)
    (ckptExists : Bool) (ckptOsd optimState : Nat)
    (scatter : Option Nat → Nat → Nat) : OptimLoadResult :=
  if ckptExists = false then
    { events := [Ev.print ("warning - optimizer checkpoint not present " ++
        optimizer_ckpt_load_path cfg cwd ++ ". Returning. ")],
      sharded_osd := none, optimState := optimState, ret := none }
  else
    let full_osd : Option Nat := if rank = 0 then some ckptOsd else none
    { events :=
        (if rank = 0 then
          [Ev.readFile (optimizer_ckpt_load_path cfg cwd)]
          ++ (if cfg.verbose then [Ev.print "loaded full osd on rank 0"] else [])
        else [])
        ++ [Ev.scatterOptimState]
        ++ (if cfg.verbose then
          [Ev.print ("optimizer shard loaded on rank " ++ natDecimal rank)]
        else []),
      sharded_osd := some (scatter full_osd rank),
      optimState := optimState, ret := none }

/-- `load_distributed_model_checkpoint(model, rank, cfg)`: does something only
when the configured type is `LOCAL_STATE_DICT`; then every rank prints the
start message, checks the directory, and either returns (rank 0 alone logging
the absence) or reads and applies its shard. -/
def load_distributed_model_checkpoint (rank : Nat) (cfg : Config) (cwd : String)
    (dirExists : Bool) (distCkptState modelState : Nat)
    (elapsed : String) : ModelLoadResult :=
  if cfg.checkpoint_type = StateDictType.LOCAL_STATE_DICT then
    if dirExists = false then
      { events := [Ev.print ("loading distributed checkpoint, rank " ++
          natDecimal rank ++ "...")]
          ++ (if rank = 0 then [Ev.print "No checkpoint directory found...skipping"] else []),
        modelState := modelState, ret := none }
    else
      { events := [Ev.print ("loading distributed checkpoint, rank " ++
          natDecimal rank ++ "..."),
          Ev.getLocalStateDict,
          Ev.distRead (dist_ckpt_dir cfg cwd),
          Ev.applyModelStateDict,
          Ev.print ("--> local state loaded on rank " ++ natDecimal rank)]
          ++ (if rank = 0 then
            [Ev.print ("loading time for dist checkpoint = " ++ elapsed)]
          else []),
        modelState := distCkptState, ret := none }
  else
    { events := [], modelState := modelState, ret := none }

/-- `save_distributed_model_checkpoint(model, rank, cfg, epoch)`: rank 0 prints
the start message unconditionally; the body runs only when the configured type
is `LOCAL_STATE_DICT`, in which case every rank takes its local state dict and
writes it to the (epoch-independent) shared directory, rank 0 reporting timing. -/
def save_distributed_model_checkpoint (rank : Nat) (cfg : Config) (cwd : String)
    (epoch : Nat) (elapsed : String) : SaveResult :=
  { events :=
      (if rank = 0 then [Ev.print "Starting distributed checkpoint save..."] else [])
      ++ (if cfg.checkpoint_type = StateDictType.LOCAL_STATE_DICT then
        [Ev.getLocalStateDict, Ev.distWrite (dist_ckpt_dir cfg cwd)]
        ++ (if rank = 0 then
          [Ev.print ("total save time = " ++ elapsed),
           Ev.print ("--> distributed checkpoint saved at " ++ dist_ckpt_dir cfg cwd)]
        else [])
      else []),
    ret := none }

end CheckpointHandler

namespace CheckpointHandler

theorem digitChar_toNat_sub (n : Nat) (h : n < 10) :
    (Nat.digitChar n).toNat - 48 = n := by
  interval_cases n <;> decide

theorem decVal_append_singleton (l : List Char) (c : Char) :
    decVal (l ++ [c]) = 10 * decVal l + (c.toNat - 48) := by
  simp [decVal, List.foldl_append]

theorem decVal_natDecimalCore (fuel : Nat) :
    ∀ n : Nat, n < fuel → decVal (natDecimalCore fuel n) = n := by
  induction fuel with
  | zero => intro n hn; omega
  | succ fuel ih =>
    intro n hn
    rw [natDecimalCore]
    split
    · next h =>
      simp [decVal, digitChar_toNat_sub n h]
    · next h =>
      have hdiv : n / 10 < fuel := by
        have hlt : n / 10 < n := Nat.div_lt_self (by omega) (by omega)
        omega
      rw [decVal_append_singleton, ih (n / 10) hdiv,
        digitChar_toNat_sub (n % 10) (Nat.mod_lt n (by omega))]
      omega

theorem decVal_natDecimalAux (n : Nat) : decVal (natDecimalAux n) = n :=
  decVal_natDecimalCore (n + 1) n (Nat.lt_succ_self n)

theorem natDecimal_inj {m n : Nat} (h : natDecimal m = natDecimal n) : m = n := by
  have hd : natDecimalAux m = natDecimalAux n := congrArg String.data h
  have hv := congrArg decVal hd
  rwa [decVal_natDecimalAux, decVal_natDecimalAux] at hv

theorem string_append_left_cancel {a b c : String} (h : c ++ a = c ++ b) : a = b := by
  have hd := congrArg String.data h
  simp only [String.data_append] at hd
  exact String.ext (List.append_cancel_left hd)

theorem string_append_right_cancel {a b c : String} (h : a ++ c = b ++ c) : a = b := by
  have hd := congrArg String.data h
  simp only [String.data_append] at hd
  exact String.ext (List.append_cancel_right hd)

end CheckpointHandler

namespace CheckpointHandler

/-- A concrete configuration whose checkpoint type is `FULL_STATE_DICT`. -/
def cfgFull : Config :=
  { checkpoint_type := StateDictType.FULL_STATE_DICT
    verbose := false
    checkpoint_folder := "ckpts"
    model_save_name := "mymodel"
    checkpoint_model_filename := "mymodel-1.pt"
    optimizer_name := "adam"
    optimizer_checkpoint_file := "adam-mymodel-1.pt"
    dist_checkpoint_root_folder := "droot"
    dist_checkpoint_folder := "dfold"
    model_name := "mn" }

/-- The same concrete configuration with checkpoint type `LOCAL_STATE_DICT`. -/
def cfgLocal : Config :=
  { cfgFull with checkpoint_type := StateDictType.LOCAL_STATE_DICT }

/-- Claim C1: with a non-`FULL_STATE_DICT` configuration, `save_model_checkpoint`
prints the configuration-mismatch message (which itself says "aborting") but
does not abort: on the same call it still performs the full-state gather and,
on rank 0, writes the checkpoint file. -/
theorem claim_C1_code_eval :
    Ev.print (" unable to handle checkpoint type StateDictType.LOCAL_STATE_DICT, aborting")
        ∈ (save_model_checkpoint 0 cfgLocal "/work" 1).events
    ∧ Ev.gatherFullStateDict ∈ (save_model_checkpoint 0 cfgLocal "/work" 1).events
    ∧ Ev.writeFile "/work/ckpts/mymodel-1.pt" ∈ (save_model_checkpoint 0 cfgLocal "/work" 1).events := by
  decide

/-- Claim C2: `load_optimizer_checkpoint` on rank 0 with an existing optimizer
checkpoint computes the scattered shard (here the scatter provider returns 5)
but never installs it — `optimizer.load_state_dict(sharded_osd)` is commented
out in the source — so the optimizer state stays at its pre-call value 3,
different from the scattered shard. -/
theorem claim_C2_code_eval :
    (load_optimizer_checkpoint 0 cfgFull "/work" true 7 3 (fun _ _ => 5)).sharded_osd = some 5
    ∧ (load_optimizer_checkpoint 0 cfgFull "/work" true 7 3 (fun _ _ => 5)).optimState = 3
    ∧ Ev.scatterOptimState ∈ (load_optimizer_checkpoint 0 cfgFull "/work" true 7 3 (fun _ _ => 5)).events
    ∧ Ev.applyOptimStateDict ∉ (load_optimizer_checkpoint 0 cfgFull "/work" true 7 3 (fun _ _ => 5)).events
    ∧ (load_optimizer_checkpoint 0 cfgFull "/work" true 7 3 (fun _ _ => 5)).optimState ≠ 5 := by
  refine ⟨rfl, rfl, by decide, by decide, by decide⟩

end CheckpointHandler

namespace CheckpointHandler

/-- Claim C3 counterexample: with a `LOCAL_STATE_DICT` configuration, the
distributed save operation behaves identically for epoch 1 and epoch 2 — in
particular it writes the very same directory for both — so the epoch-2
artifact name is not distinct from the epoch-1 artifact name and the save can
overwrite it. -/
theorem claim_C3_counterexample :
    (save_distributed_model_checkpoint 0 cfgLocal "/work" 2 "t").events
      = (save_distributed_model_checkpoint 0 cfgLocal "/work" 1 "t").events
    ∧ Ev.distWrite "/work/droot/dfold-mn"
        ∈ (save_distributed_model_checkpoint 0 cfgLocal "/work" 2 "t").events := by
  decide

/-- Claim C3 (amended): the full-state model save and the optimizer save embed
the epoch number in the artifact file name, so artifacts of distinct epochs
have distinct paths and epoch N+1 never overwrites epoch N; the distributed
save, however, ignores its epoch argument entirely (its effect trace and the
directory it writes are the same for every epoch), so consecutive epochs
target the same directory. -/
theorem claim_C3_epoch_names (cfg : Config) (cwd : String) (e e' : Nat)
    (h : e ≠ e') :
    model_ckpt_save_path cfg cwd e ≠ model_ckpt_save_path cfg cwd e'
    ∧ optimizer_ckpt_save_path cfg cwd e ≠ optimizer_ckpt_save_path cfg cwd e'
    ∧ ∀ (rank : Nat) (el : String),
        save_distributed_model_checkpoint rank cfg cwd e el
          = save_distributed_model_checkpoint rank cfg cwd e' el := by
  refine ⟨?_, ?_, fun rank el => rfl⟩
  · intro hp
    rw [model_ckpt_save_path, model_ckpt_save_path,
      model_ckpt_save_name, model_ckpt_save_name] at hp
    have h1 := string_append_left_cancel hp
    have h2 := string_append_right_cancel h1
    exact h (natDecimal_inj (string_append_left_cancel h2))
  · intro hp
    rw [optimizer_ckpt_save_path, optimizer_ckpt_save_path,
      optimizer_ckpt_save_name, optimizer_ckpt_save_name] at hp
    have h1 := string_append_left_cancel hp
    have h2 := string_append_right_cancel h1
    exact h (natDecimal_inj (string_append_left_cancel h2))

/-- Witness for claim C3 (amended) at epochs 1 and 2 with a concrete
configuration. -/
theorem claim_C3_witness :
    model_ckpt_save_path cfgFull "/work" 1 ≠ model_ckpt_save_path cfgFull "/work" 2
    ∧ optimizer_ckpt_save_path cfgFull "/work" 1 ≠ optimizer_ckpt_save_path cfgFull "/work" 2
    ∧ ∀ (rank : Nat) (el : String),
        save_distributed_model_checkpoint rank cfgFull "/work" 1 el
          = save_distributed_model_checkpoint rank cfgFull "/work" 2 el :=
  claim_C3_epoch_names cfgFull "/work" 1 2 (by decide)

end CheckpointHandler

namespace CheckpointHandler

/-- Claim C4 counterexample: `load_model_checkpoint` returns Python `None`
both when the artifact is present and when it is absent, so no reading of its
return value can indicate whether an artifact was found and applied. -/
theorem claim_C4_counterexample :
    ¬ ∃ f : Option Bool → Bool,
      f (load_model_checkpoint 0 cfgFull "/work" true 7 3).ret = true
      ∧ f (load_model_checkpoint 0 cfgFull "/work" false 7 3).ret = false := by
  rintro ⟨f, h1, h2⟩
  have e1 : (load_model_checkpoint 0 cfgFull "/work" true 7 3).ret = none := rfl
  have e2 : (load_model_checkpoint 0 cfgFull "/work" false 7 3).ret = none := rfl
  rw [e1] at h1
  rw [e2] at h2
  rw [h1] at h2
  exact absurd h2 (by decide)

/-- Claim C4 (amended): every load operation returns `None` unconditionally —
there is no found/applied flag — and when the artifact is absent none of them
performs any filesystem read (each prints or silently returns instead of
raising). -/
theorem claim_C4_load_returns (rank : Nat) (cfg : Config) (cwd : String)
    (b : Bool) (x y : Nat) (scatter : Option Nat → Nat → Nat) (el : String) :
    (load_model_checkpoint rank cfg cwd b x y).ret = none
    ∧ (load_optimizer_checkpoint rank cfg cwd b x y scatter).ret = none
    ∧ (load_distributed_model_checkpoint rank cfg cwd b x y el).ret = none
    ∧ (load_model_checkpoint rank cfg cwd false x y).events.any isFsRead = false
    ∧ (load_optimizer_checkpoint rank cfg cwd false x y scatter).events.any isFsRead = false
    ∧ (load_distributed_model_checkpoint rank cfg cwd false x y el).events.any isFsRead = false := by
  cases rank <;> cases b <;>
    rcases cfg with ⟨ct, v, c1, c2, c3, c4, c5, c6, c7, c8⟩ <;> cases ct <;> cases v <;>
    simp [load_model_checkpoint, load_optimizer_checkpoint,
      load_distributed_model_checkpoint, isFsRead]

/-- Claim C5 counterexample: the existence check in `load_optimizer_checkpoint`
is executed by every rank on its own filesystem view: rank 1, observing the
artifact as absent, itself prints the warning and skips the collective
scatter, while rank 0, observing it as present, enters the scatter — the
load-vs-skip decision is not taken from a rank-0-only check. -/
theorem claim_C5_counterexample :
    (load_optimizer_checkpoint 1 cfgFull "/work" false 7 3 (fun _ _ => 5)).events
      = [Ev.print "warning - optimizer checkpoint not present /work/ckpts/adam-mymodel-1.pt. Returning. "]
    ∧ Ev.scatterOptimState ∉ (load_optimizer_checkpoint 1 cfgFull "/work" false 7 3 (fun _ _ => 5)).events
    ∧ Ev.scatterOptimState ∈ (load_optimizer_checkpoint 0 cfgFull "/work" true 7 3 (fun _ _ => 5)).events := by
  decide

/-- Claim C5 (amended): every rank — not only the coordinating rank — decides
load-vs-skip from its own local existence check of the optimizer artifact
path: a rank observing the artifact as absent prints the warning and performs
no scatter, and a rank observing it as present participates in the scatter;
skipping is uniform only insofar as all ranks observe the same existence
value. -/
theorem claim_C5_per_rank_check (rank : Nat) (cfg : Config) (cwd : String)
    (o s : Nat) (scatter : Option Nat → Nat → Nat) :
    (load_optimizer_checkpoint rank cfg cwd false o s scatter).events
      = [Ev.print ("warning - optimizer checkpoint not present " ++
          optimizer_ckpt_load_path cfg cwd ++ ". Returning. ")]
    ∧ (load_optimizer_checkpoint rank cfg cwd false o s scatter).optimState = s
    ∧ Ev.scatterOptimState ∈ (load_optimizer_checkpoint rank cfg cwd true o s scatter).events := by
  refine ⟨rfl, rfl, ?_⟩
  cases rank <;> cases hv : cfg.verbose <;>
    simp [load_optimizer_checkpoint, hv]

end CheckpointHandler

namespace CheckpointHandler

/-- Claim C6: in full-state mode, every rank other than rank 0 performs no
filesystem write at all (no file write, no directory creation) in either the
model save or the optimizer save, while still participating in the collective
gather each function performs; only rank 0 writes the artifacts. -/
theorem claim_C6_nonzero_rank_no_write (rank : Nat) (cfg : Config) (cwd : String)
    (epoch osdLen : Nat) (hr : rank ≠ 0)
    (hm : cfg.checkpoint_type = StateDictType.FULL_STATE_DICT) :
    (save_model_checkpoint rank cfg cwd epoch).events.any isFsWrite = false
    ∧ Ev.gatherFullStateDict ∈ (save_model_checkpoint rank cfg cwd epoch).events
    ∧ (save_optimizer_checkpoint rank cfg cwd epoch osdLen).events.any isFsWrite = false
    ∧ Ev.gatherFullOptimState ∈ (save_optimizer_checkpoint rank cfg cwd epoch osdLen).events := by
  cases hv : cfg.verbose <;>
    simp [save_model_checkpoint, save_optimizer_checkpoint, hr, hm, hv, isFsWrite]

/-- Witness for claim C6: rank 1 under a concrete full-state configuration. -/
theorem claim_C6_witness :
    (save_model_checkpoint 1 cfgFull "/work" 1).events.any isFsWrite = false
    ∧ Ev.gatherFullStateDict ∈ (save_model_checkpoint 1 cfgFull "/work" 1).events
    ∧ (save_optimizer_checkpoint 1 cfgFull "/work" 1 4).events.any isFsWrite = false
    ∧ Ev.gatherFullOptimState ∈ (save_optimizer_checkpoint 1 cfgFull "/work" 1 4).events :=
  claim_C6_nonzero_rank_no_write 1 cfgFull "/work" 1 4 (by decide) rfl

/-- Claim C7: when the full-state model checkpoint file does not exist,
`load_model_checkpoint` leaves the model state unchanged on every rank,
performs no filesystem read and no state-dict application (so nothing can
raise), and on rank 0 reports the missing artifact with a printed message. -/
theorem claim_C7_missing_model_ckpt (rank : Nat) (cfg : Config) (cwd : String)
    (ckptState modelState : Nat) :
    (load_model_checkpoint rank cfg cwd false ckptState modelState).modelState = modelState
    ∧ (load_model_checkpoint rank cfg cwd false ckptState modelState).events.any isFsRead = false
    ∧ Ev.applyModelStateDict ∉ (load_model_checkpoint rank cfg cwd false ckptState modelState).events
    ∧ Ev.print ("model checkpoint " ++ model_ckpt_load_path cfg cwd ++ " not present. Returning...")
        ∈ (load_model_checkpoint 0 cfg cwd false ckptState modelState).events := by
  cases rank <;> simp [load_model_checkpoint, isFsRead]

/-- Claim C8: in distributed mode, when the checkpoint directory does not
exist every rank's load consists of the start print followed, on rank 0 alone,
by the absence log; no rank performs any read and the model state is
unchanged. -/
theorem claim_C8_missing_dist_dir (rank : Nat) (cfg : Config) (cwd : String)
    (distCkptState modelState : Nat) (el : String)
    (hm : cfg.checkpoint_type = StateDictType.LOCAL_STATE_DICT) :
    (load_distributed_model_checkpoint rank cfg cwd false distCkptState modelState el).events
      = Ev.print ("loading distributed checkpoint, rank " ++ natDecimal rank ++ "...")
        :: (if rank = 0 then [Ev.print "No checkpoint directory found...skipping"] else [])
    ∧ (load_distributed_model_checkpoint rank cfg cwd false distCkptState modelState el).events.any
        isFsRead = false
    ∧ (load_distributed_model_checkpoint rank cfg cwd false distCkptState modelState el).modelState
        = modelState := by
  cases rank <;> simp [load_distributed_model_checkpoint, hm, isFsRead]

/-- Witness for claim C8: rank 1 under a concrete local-state configuration. -/
theorem claim_C8_witness :
    (load_distributed_model_checkpoint 1 cfgLocal "/work" false 7 3 "t").events
      = Ev.print ("loading distributed checkpoint, rank " ++ natDecimal 1 ++ "...")
        :: (if 1 = 0 then [Ev.print "No checkpoint directory found...skipping"] else [])
    ∧ (load_distributed_model_checkpoint 1 cfgLocal "/work" false 7 3 "t").events.any
        isFsRead = false
    ∧ (load_distributed_model_checkpoint 1 cfgLocal "/work" false 7 3 "t").modelState = 3 :=
  claim_C8_missing_dist_dir 1 cfgLocal "/work" 7 3 "t" rfl

/-- Claim C9: whatever the configured checkpoint type (the function never
checks it), `save_optimizer_checkpoint` performs the collective optimizer
state gather exactly once on every rank; filesystem writes happen exactly when
the rank is 0, and rank 0 writes the optimizer artifact path. -/
theorem claim_C9_optimizer_save (rank : Nat) (cfg : Config) (cwd : String)
    (epoch osdLen : Nat) :
    (save_optimizer_checkpoint rank cfg cwd epoch osdLen).events.count
        Ev.gatherFullOptimState = 1
    ∧ (save_optimizer_checkpoint rank cfg cwd epoch osdLen).events.any isFsWrite
        = (rank == 0)
    ∧ Ev.writeFile (optimizer_ckpt_save_path cfg cwd epoch)
        ∈ (save_optimizer_checkpoint 0 cfg cwd epoch osdLen).events := by
  cases rank <;> cases hv : cfg.verbose <;>
    simp [save_optimizer_checkpoint, hv, isFsWrite, List.count_append, List.count_cons]

/-- Claim C10: when the configured checkpoint type is not `LOCAL_STATE_DICT`,
the distributed save still prints its start message on rank 0 but does nothing
else (no state-dict access, no write, no error report) and returns `None`,
while the distributed load does nothing at all — no message, no read, model
state unchanged — and returns `None`. -/
theorem claim_C10_silent_mismatch (rank : Nat) (cfg : Config) (cwd : String)
    (epoch : Nat) (el : String) (dirExists : Bool) (x y : Nat)
    (hm : cfg.checkpoint_type ≠ StateDictType.LOCAL_STATE_DICT) :
    (save_distributed_model_checkpoint rank cfg cwd epoch el).events
      = (if rank = 0 then [Ev.print "Starting distributed checkpoint save..."] else [])
    ∧ (save_distributed_model_checkpoint rank cfg cwd epoch el).ret = none
    ∧ (load_distributed_model_checkpoint rank cfg cwd dirExists x y el).events = []
    ∧ (load_distributed_model_checkpoint rank cfg cwd dirExists x y el).ret = none
    ∧ (load_distributed_model_checkpoint rank cfg cwd dirExists x y el).modelState = y := by
  simp [save_distributed_model_checkpoint, load_distributed_model_checkpoint, hm]

/-- Witness for claim C10: rank 0 under a concrete full-state configuration. -/
theorem claim_C10_witness :
    (save_distributed_model_checkpoint 0 cfgFull "/work" 1 "t").events
      = (if 0 = 0 then [Ev.print "Starting distributed checkpoint save..."] else [])
    ∧ (save_distributed_model_checkpoint 0 cfgFull "/work" 1 "t").ret = none
    ∧ (load_distributed_model_checkpoint 0 cfgFull "/work" true 7 3 "t").events = []
    ∧ (load_distributed_model_checkpoint 0 cfgFull "/work" true 7 3 "t").ret = none
    ∧ (load_distributed_model_checkpoint 0 cfgFull "/work" true 7 3 "t").modelState = 3 :=
  claim_C10_silent_mismatch 0 cfgFull "/work" 1 "t" true 7 3 (by decide)

end CheckpointHandler
